import Mathlib

/-
  Verification of the pet-state server (src/app.py).

  Shallow embedding conventions:
  - timestamps are rationals (seconds); nullable timestamps are `Option ℚ`;
  - the wall clock read by `datetime.now()` in the source is passed as an
    explicit `now : ℚ` argument;
  - vitals are rationals (hunger accumulates the fractional `rate/30`
    increments of the scheduler tick, which SQLite stores as REAL);
  - the scheduler's `random.random() < 0.01` roll is an explicit Bool input;
  - database rows are `Option` values (none = row absent).
-/

-- ==================== Data model ====================

inductive Stage where
  | INFANT
  | CHILD
  | ADULT
  | OLD
  | END
  deriving DecidableEq, Repr

structure PetState where
  age : ℤ
  stage : Stage
  health : ℚ
  hunger : ℚ
  cleanliness : ℚ
  happiness : ℚ
  energy : ℚ
  poop_present : Bool
  poop_timestamp : Option ℚ
  digestion_due_time : Option ℚ
  current_menu : String
  current_emotion : String
  emotion_expire_at : Option ℚ
  action_lock : Bool
  version : ℕ
  last_feed_time : Option ℚ
  last_play_time : Option ℚ
  last_sleep_time : Option ℚ
  last_clean_time : Option ℚ
  last_age_increment : Option ℚ
  deriving DecidableEq, Repr

-- ==================== Emotion priority (get_emotion_priority) ====================

/- Source app.py lines 850-855: the emotion is locked when emotion_expire_at
   is set and strictly in the future. -/
def emotion_locked (s : PetState) (now : ℚ) : Bool :=
  match s.emotion_expire_at with
  | some expire => decide (expire > now)
  | none => false

/- Source app.py lines 863-867: poop counts as neglected when its timestamp
   is set and more than 15 minutes old. -/
def poop_overdue (s : PetState) (now : ℚ) : Bool :=
  match s.poop_timestamp with
  | some pt => decide (now - pt > 15 * 60)
  | none => false

/- Source app.py lines 845-884. -/
def get_emotion_priority (s : PetState) (now : ℚ) : String :=
  if emotion_locked s now then s.current_emotion
  else if s.health < 40 then "SICK"
  else if s.poop_present then
    (if poop_overdue s now then "SICK" else "POOP")
  else if s.hunger > 70 then
    (if s.stage = Stage.INFANT then "CRY" else "HUNGER")
  else if s.energy < 30 then "SLEEP"
  else if s.happiness > 80 then "HAPPY"
  else if s.happiness < 40 then "SAD"
  else "IDLE"

-- ==================== Scheduler tick (pet_engine_cycle) ====================

/- Source app.py lines 941-948: stage hunger rates; a stage that matches no
   branch (END) leaves hunger_increase at 0. -/
def stage_hunger_rate : Stage → ℚ
  | Stage.INFANT => 15
  | Stage.CHILD => 10
  | Stage.ADULT => 8
  | Stage.OLD => 12
  | Stage.END => 0

/- Source app.py lines 924-933: stage thresholds by age. -/
def stage_for_age (age : ℤ) : Stage :=
  if age ≤ 5 then Stage.INFANT
  else if age ≤ 10 then Stage.CHILD
  else if age ≤ 17 then Stage.ADULT
  else if age ≤ 21 then Stage.OLD
  else Stage.END

/- Source app.py lines 914-917: age increments when more than 24 hours have
   passed since last_age_increment. -/
def age_progressed (s : PetState) (now : ℚ) : Bool :=
  match s.last_age_increment with
  | some t => decide (now - t > 24 * 3600)
  | none => false

/- The stage the tick uses for the hunger rate: the stage after any age
   progression of this tick (source app.py line 939,
   current_stage = updates.get, with fallback to the snapshot stage). -/
def tick_stage (s : PetState) (now : ℚ) : Stage :=
  if age_progressed s now then stage_for_age (s.age + 1) else s.stage

/- One iteration of the background scheduler, source app.py lines 893-1007.
   Returns none when the tick is skipped (action_lock set) and
   some of the committed state otherwise; the commit goes through
   update_pet_state_atomic, which bumps the version.
   sickRoll models random.random() < 0.01 (line 977).
   Note the source quirk at line 978: the sickness penalty is computed from
   the snapshot health and overwrites a previously stored neglect penalty. -/
def pet_engine_cycle (s : PetState) (now : ℚ) (sickRoll : Bool) : Option PetState :=
  if s.action_lock then none
  else
    let aged := age_progressed s now
    let newStage := tick_stage s now
    let poopAppears :=
      match s.digestion_due_time with
      | some due => decide (now > due) && !s.poop_present
      | none => false
    let neglect := s.poop_present && poop_overdue s now
    let healthAfterNeglect := if neglect then max 0 (s.health - 10) else s.health
    let healthFinal :=
      if newStage = Stage.OLD ∧ sickRoll = true then max 0 (s.health - 5)
      else healthAfterNeglect
    let merged : PetState :=
      { s with
        age := if aged then s.age + 1 else s.age
        stage := newStage
        last_age_increment := if aged then some now else s.last_age_increment
        hunger := min 100 (s.hunger + stage_hunger_rate newStage / 30)
        poop_present := if poopAppears then true else s.poop_present
        poop_timestamp := if poopAppears then some now else s.poop_timestamp
        digestion_due_time := if poopAppears then none else s.digestion_due_time
        health := healthFinal
        energy := max 0 (s.energy - 2) }
    let newEmotion :=
      if emotion_locked s now then s.current_emotion
      else get_emotion_priority merged now
    some { merged with current_emotion := newEmotion, version := s.version + 1 }

-- ==================== Feed actions ====================

/- The /api/pet/feed endpoint, source app.py lines 1785-1826: one atomic
   update that sets action_lock, then a second atomic update carrying the
   feed effect computed from the snapshot fetched before the lock. -/
def pet_feed (s : PetState) (now : ℚ) : PetState :=
  let locked : PetState := { s with action_lock := true, version := s.version + 1 }
  { locked with
    hunger := max 0 (s.hunger - 40)
    last_feed_time := some now
    digestion_due_time := some (now + 30 * 60)
    current_emotion := "EATING"
    emotion_expire_at := some (now + 3)
    action_lock := false
    version := locked.version + 1 }

/- The auto-feed performed by the binary image upload, source app.py
   lines 1435-1453: a single atomic update with the same feed effect
   (it does not touch action_lock). -/
def upload_image_auto_feed (s : PetState) (now : ℚ) : PetState :=
  { s with
    hunger := max 0 (s.hunger - 40)
    last_feed_time := some now
    digestion_due_time := some (now + 30 * 60)
    current_emotion := "EATING"
    emotion_expire_at := some (now + 3)
    version := s.version + 1 }

/- Repeated feed calls at the given times. -/
def feed_seq : PetState → List ℚ → PetState
  | s, [] => s
  | s, t :: ts => feed_seq (pet_feed s t) ts

-- ==================== Step detector (detect_steps) ====================

structure Accel where
  x : ℚ
  y : ℚ
  z : ℚ
  deriving DecidableEq, Repr

/- Source app.py line 66: squared magnitude. -/
def stoss (a : Accel) : ℚ := a.x ^ 2 + a.y ^ 2 + a.z ^ 2

/- Source app.py line 73. -/
def STEP_BARRIER : ℚ := 10000

/- Source app.py line 74 (0.2 seconds). -/
def STEP_MIN_INTERVAL : ℚ := 1 / 5

/- Source app.py lines 54-82: one call of detect_steps. Returns the
   steps detected (0 or 1) and the new last-step time kept in the
   detector's process-wide state. -/
def detect_steps (a : Accel) (t : ℚ) (last : ℚ) : ℕ × ℚ :=
  if stoss a > STEP_BARRIER ∧ t - last > STEP_MIN_INTERVAL then (1, t)
  else (0, last)

/- Source app.py lines 1203-1213: the batch loop of receive_sensor_data.
   Sub-reading idx is timestamped start + idx * 0.1 and fed through
   detect_steps; the step counts are summed. Returns (batch step count,
   final last-step time). -/
def process_sensor_batch : List Accel → ℚ → ℚ → ℕ × ℚ
  | [], _, last => (0, last)
  | a :: rest, t, last =>
    let r := detect_steps a t last
    let rec2 := process_sensor_batch rest (t + 1 / 10) r.2
    (r.1 + rec2.1, rec2.2)

-- ==================== Important events (mark_event_received) ====================

structure EventRow where
  id : ℕ
  device_id : String
  event_type : String
  message : String
  is_sent : Bool
  deriving DecidableEq, Repr

/- Source app.py lines 1727-1773: the acknowledgment endpoint.
   event_id none models a request body without an event_id field.
   Returns (resulting events table, status string, HTTP code).
   The UPDATE filters only on id and device_id (line 1754) — it does not
   require is_sent = 0 — and SQLite rowcount counts every matched row. -/
def mark_event_received (event_id : Option ℕ) (device : String)
    (events : List EventRow) : List EventRow × String × ℕ :=
  match event_id with
  | none => (events, "error", 400)
  | some eid =>
    let updated := events.map fun e =>
      if e.id = eid ∧ e.device_id = device then { e with is_sent := true } else e
    let matched := events.countP fun e => decide (e.id = eid ∧ e.device_id = device)
    if matched > 0 then (updated, "success", 200)
    else (events, "error", 404)

-- ==================== OLED display projection ====================

/- One row of the oled_display_state table (per device). Schema defaults
   (app.py lines 578-592) make every column non-null. -/
structure OledRow where
  animation_id : ℤ
  animation_name : String
  animation_type : String
  show_home_icon : Bool
  show_food_icon : Bool
  show_poop_icon : Bool
  screen_type : String
  updated_at : ℚ
  updated_by : String
  deriving DecidableEq, Repr

/- Source app.py lines 2310-2318: stage_to_id map (the dict default 1 is
   unreachable here because Stage is the closed set the code writes). -/
def stage_to_id : Stage → ℤ
  | Stage.INFANT => 0
  | Stage.CHILD => 1
  | Stage.ADULT => 2
  | Stage.OLD => 3
  | Stage.END => 3

def stage_name : Stage → String
  | Stage.INFANT => "INFANT"
  | Stage.CHILD => "CHILD"
  | Stage.ADULT => "ADULT"
  | Stage.OLD => "OLD"
  | Stage.END => "END"

/- The JSON body returned by /api/oled-display/get. Fields that a branch of
   the source does not emit are none. -/
structure DisplayResponse where
  status : String
  mode : String
  animation_id : ℤ
  animation_name : Option String
  animation_type : Option String
  stage : String
  show_home_icon : Bool
  show_food_icon : Bool
  show_poop_icon : Bool
  screen_type : String
  current_menu : Option String
  current_emotion : Option String
  health : Option ℚ
  hunger : Option ℚ
  cleanliness : Option ℚ
  happiness : Option ℚ
  energy : Option ℚ
  poop_present : Option Bool
  deriving DecidableEq, Repr

/- Source app.py lines 2211-2218: the startup lock applies when the stored
   row was written by device_startup less than 5 seconds ago. -/
def startup_fresh (r : OledRow) (now : ℚ) : Bool :=
  r.updated_by = "device_startup" && decide (now - r.updated_at < 5)

/- Source app.py lines 2221-2233: canonical startup descriptor. -/
def startup_response : DisplayResponse :=
  { status := "success", mode := "STARTUP_RESET", animation_id := 0
    animation_name := some "INFANT", animation_type := some "pet"
    stage := "INFANT", show_home_icon := false, show_food_icon := false
    show_poop_icon := false, screen_type := "MAIN", current_menu := none
    current_emotion := none, health := none, hunger := none
    cleanliness := none, happiness := none, energy := none
    poop_present := none }

/- Source app.py lines 2269-2281: the manual-override descriptor returns
   the stored row fields (screen_type falls back to MAIN when the stored
   string is empty, modelling the Python `or` on a falsy value). -/
def manual_response (r : OledRow) : DisplayResponse :=
  { status := "success", mode := "MANUAL", animation_id := r.animation_id
    animation_name := some r.animation_name
    animation_type := some r.animation_type
    stage := r.animation_name
    show_home_icon := r.show_home_icon, show_food_icon := r.show_food_icon
    show_poop_icon := r.show_poop_icon
    screen_type := if r.screen_type = "" then "MAIN" else r.screen_type
    current_menu := none, current_emotion := none, health := none
    hunger := none, cleanliness := none, happiness := none, energy := none
    poop_present := none }

/- Source app.py lines 2288-2307: hardcoded default when no pet state row
   exists. -/
def default_response : DisplayResponse :=
  { status := "success", mode := "DEFAULT", animation_id := 1
    animation_name := none, animation_type := none, stage := "CHILD"
    show_home_icon := true, show_food_icon := false, show_poop_icon := false
    screen_type := "MAIN", current_menu := some "MAIN"
    current_emotion := some "IDLE", health := some 100, hunger := some 0
    cleanliness := some 100, happiness := some 100, energy := some 100
    poop_present := some false }

/- Source app.py lines 2329-2384: the FOOD/TOILET menu sub-state machine of
   the automatic branch. The three transitions are mutually exclusive and
   each writes pet_state directly (no version bump). Returns the updated
   pet state and the play_eating flag. -/
def menu_transition (p : PetState) : PetState × Bool :=
  if p.hunger ≤ 50 ∧ p.current_menu = "FOOD_MENU" then
    ({ p with current_emotion := "EATING" }, true)
  else if p.current_emotion = "EATING" ∧ p.current_menu = "FOOD_MENU" then
    ({ p with current_menu := "MAIN", current_emotion := "IDLE" }, false)
  else if p.poop_present = false ∧ p.current_menu = "TOILET_MENU" then
    ({ p with current_menu := "MAIN", current_emotion := "IDLE" }, false)
  else (p, false)

/- Source app.py lines 2386-2415: descriptor of the automatic branch,
   computed from the (re-fetched) pet state after the menu transition. -/
def automatic_response (p1 : PetState) : DisplayResponse :=
  { status := "success", mode := "AUTOMATIC"
    animation_id := stage_to_id p1.stage
    animation_name := some (stage_name p1.stage)
    animation_type := none
    stage := stage_name p1.stage
    show_home_icon := true
    show_food_icon := decide (p1.hunger > 70)
    show_poop_icon := p1.poop_present
    screen_type := p1.current_menu
    current_menu := some p1.current_menu
    current_emotion := some p1.current_emotion
    health := some p1.health, hunger := some p1.hunger
    cleanliness := some p1.cleanliness, happiness := some p1.happiness
    energy := some p1.energy, poop_present := some p1.poop_present }

/- Source app.py lines 2178-2419: the /api/oled-display/get endpoint.
   Inputs: the oled_display_state row for the device (if any), the
   pet_state row (if any) and the current time. Returns the response body
   and the pet state as left in the database (the automatic branch may
   rewrite menu and emotion). When a display row exists the endpoint
   returns from the startup or manual branch and never reads pet state. -/
def get_oled_display (row : Option OledRow) (pet : Option PetState)
    (now : ℚ) : DisplayResponse × Option PetState :=
  match row with
  | some r =>
    if startup_fresh r now then (startup_response, pet)
    else (manual_response r, pet)
  | none =>
    match pet with
    | none => (default_response, none)
    | some p =>
      let t := menu_transition p
      (automatic_response t.1, some t.1)

-- ==================== Display row lifecycle ====================

/- Source app.py lines 618-626: init_database inserts a default display row
   (updated_by system_init) when the table is empty. -/
def init_oled_row (t : ℚ) : OledRow :=
  { animation_id := 1, animation_name := "CHILD", animation_type := "pet"
    show_home_icon := false, show_food_icon := false, show_poop_icon := false
    screen_type := "MAIN", updated_at := t, updated_by := "system_init" }

def init_database_oled (existing : Option OledRow) (t : ℚ) : Option OledRow :=
  match existing with
  | some r => some r
  | none => some (init_oled_row t)

/- Source app.py lines 2591-2612: device_startup_complete resets the
   display row to INFANT (update, or insert when absent); update and insert
   produce the same column values. -/
def device_startup_display (_existing : Option OledRow) (t : ℚ) : OledRow :=
  { animation_id := 0, animation_name := "INFANT", animation_type := "pet"
    show_home_icon := false, show_food_icon := false, show_poop_icon := false
    screen_type := "MAIN", updated_at := t, updated_by := "device_startup" }

/- Source app.py lines 2523-2537: /api/oled-display/reset deletes the
   display row. -/
def reset_oled_display (_row : Option OledRow) : Option OledRow := none

-- ==================== Direct pet_state write paths ====================

/- Source app.py lines 2614-2647: the pet_state reset of
   device_startup_complete. The UPDATE lists every column except version
   (and created_at); the INSERT branch creates a fresh row with the schema
   default version 0. -/
def device_startup_pet_reset (existing : Option PetState) (t : ℚ) : PetState :=
  match existing with
  | some p =>
    { p with
      age := 0, stage := Stage.INFANT, health := 100, hunger := 0
      cleanliness := 100, happiness := 100, energy := 100
      poop_present := false, poop_timestamp := none
      digestion_due_time := none, current_menu := "MAIN"
      current_emotion := "IDLE", emotion_expire_at := none
      action_lock := false, last_feed_time := none, last_play_time := none
      last_sleep_time := none, last_clean_time := none
      last_age_increment := some t }
  | none =>
    { age := 0, stage := Stage.INFANT, health := 100, hunger := 0
      cleanliness := 100, happiness := 100, energy := 100
      poop_present := false, poop_timestamp := none
      digestion_due_time := none, current_menu := "MAIN"
      current_emotion := "IDLE", emotion_expire_at := none
      action_lock := false, version := 0, last_feed_time := none
      last_play_time := none, last_sleep_time := none
      last_clean_time := none, last_age_increment := some t }

/- Source app.py lines 2866-2911: /api/oled-display/menu-switch. Validates
   the menu name, then writes current_menu directly (no version bump). -/
def switch_menu (menu : String) (p : PetState) : Except String PetState :=
  if menu = "MAIN" ∨ menu = "FOOD_MENU" ∨ menu = "TOILET_MENU" then
    Except.ok { p with current_menu := menu }
  else Except.error "Invalid menu"

-- ==================== Atomic update (update_pet_state_atomic) ====================

/- A partial field update (the update_fields dict of the source). none
   means the key is absent from the dict. The version column is never a
   caller-supplied key; update_pet_state_atomic computes it. -/
structure PetPatch where
  age : Option ℤ := none
  stage : Option Stage := none
  health : Option ℚ := none
  hunger : Option ℚ := none
  cleanliness : Option ℚ := none
  happiness : Option ℚ := none
  energy : Option ℚ := none
  poop_present : Option Bool := none
  poop_timestamp : Option (Option ℚ) := none
  digestion_due_time : Option (Option ℚ) := none
  current_menu : Option String := none
  current_emotion : Option String := none
  emotion_expire_at : Option (Option ℚ) := none
  action_lock : Option Bool := none
  last_feed_time : Option (Option ℚ) := none
  last_play_time : Option (Option ℚ) := none
  last_sleep_time : Option (Option ℚ) := none
  last_clean_time : Option (Option ℚ) := none
  last_age_increment : Option (Option ℚ) := none
  deriving Repr

/- Source app.py line 754: merge of update_fields over the loaded row. -/
def apply_patch (s : PetState) (u : PetPatch) : PetState :=
  { age := u.age.getD s.age
    stage := u.stage.getD s.stage
    health := u.health.getD s.health
    hunger := u.hunger.getD s.hunger
    cleanliness := u.cleanliness.getD s.cleanliness
    happiness := u.happiness.getD s.happiness
    energy := u.energy.getD s.energy
    poop_present := u.poop_present.getD s.poop_present
    poop_timestamp := u.poop_timestamp.getD s.poop_timestamp
    digestion_due_time := u.digestion_due_time.getD s.digestion_due_time
    current_menu := u.current_menu.getD s.current_menu
    current_emotion := u.current_emotion.getD s.current_emotion
    emotion_expire_at := u.emotion_expire_at.getD s.emotion_expire_at
    action_lock := u.action_lock.getD s.action_lock
    version := s.version
    last_feed_time := u.last_feed_time.getD s.last_feed_time
    last_play_time := u.last_play_time.getD s.last_play_time
    last_sleep_time := u.last_sleep_time.getD s.last_sleep_time
    last_clean_time := u.last_clean_time.getD s.last_clean_time
    last_age_increment := u.last_age_increment.getD s.last_age_increment }

inductive UpdateResult where
  | notFound : UpdateResult
  | conflict : UpdateResult
  | committed : PetState → UpdateResult
  deriving DecidableEq, Repr

/- Source app.py lines 691-795: update_pet_state_atomic. The whole body of
   the function runs inside one critical section of the global db_lock, so
   the SELECT (line 712) and the version-conditioned UPDATE (line 759) see
   the same row: the second match re-reads the row exactly as the UPDATE
   would, against a database that no other writer has touched since the
   SELECT. The rowcount = 0 branch (line 782), which recurses while the
   non-reentrant lock is held, maps to UpdateResult.conflict. Returns the
   result and the row as left in the database. -/
def update_pet_state_atomic (row : Option PetState) (u : PetPatch) :
    UpdateResult × Option PetState :=
  match row with
  | none => (UpdateResult.notFound, row)
  | some cur =>
    let merged : PetState := { apply_patch cur u with version := cur.version + 1 }
    match row with
    | some rowAtWrite =>
      if rowAtWrite.version = cur.version then (UpdateResult.committed merged, some merged)
      else (UpdateResult.conflict, row)
    | none => (UpdateResult.conflict, row)

/- A sequence of calls to update_pet_state_atomic against one row. -/
def run_atomic_updates : PetState → List PetPatch → PetState
  | s, [] => s
  | s, u :: ps =>
    match (update_pet_state_atomic (some s) u).1 with
    | UpdateResult.committed m => run_atomic_updates m ps
    | _ => run_atomic_updates s ps

-- ==================== Sample inputs for witnesses ====================

def accelZero : Accel := { x := 0, y := 0, z := 0 }

def sample_pet : PetState :=
  { age := 1, stage := Stage.CHILD, health := 100, hunger := 50
    cleanliness := 100, happiness := 50, energy := 100
    poop_present := false, poop_timestamp := none
    digestion_due_time := none, current_menu := "MAIN"
    current_emotion := "IDLE", emotion_expire_at := none
    action_lock := false, version := 5, last_feed_time := none
    last_play_time := none, last_sleep_time := none
    last_clean_time := none, last_age_increment := none }

def sample_sick_pet : PetState :=
  { sample_pet with health := 30 }

def sample_locked_pet : PetState :=
  { sample_pet with action_lock := true }

def sample_sent_event : EventRow :=
  { id := 7, device_id := "ESP32_001", event_type := "high_sound"
    message := "loud sound detected", is_sent := true }

def sample_startup_row : OledRow :=
  { animation_id := 0, animation_name := "INFANT", animation_type := "pet"
    show_home_icon := false, show_food_icon := false, show_poop_icon := false
    screen_type := "MAIN", updated_at := 100, updated_by := "device_startup" }

def sample_manual_row : OledRow :=
  { animation_id := 2, animation_name := "ADULT", animation_type := "pet"
    show_home_icon := true, show_food_icon := false, show_poop_icon := true
    screen_type := "MAIN", updated_at := 100, updated_by := "web_ui" }

def sample_patch : PetPatch :=
  { hunger := some 10, current_emotion := some "EATING" }

def sample_peak : Accel := { x := 101, y := 0, z := 0 }

def sample_quiet_batch : List Accel := [{ x := 1, y := 1, z := 1 }, accelZero]

def sample_batch : List Accel := [sample_peak, accelZero, accelZero, sample_peak]

def sample_collapse_batch : List Accel := [sample_peak, sample_peak]

-- ==================== Helper lemmas ====================

lemma feed_seq_hunger_nonneg :
    ∀ (times : List ℚ) (s : PetState), 0 ≤ s.hunger → 0 ≤ (feed_seq s times).hunger := by
  intro times
  induction times with
  | nil => intro s h; exact h
  | cons t ts ih =>
    intro s _
    exact ih (pet_feed s t) (le_max_left 0 _)

lemma process_sensor_batch_cons (a : Accel) (rest : List Accel) (t last : ℚ) :
    process_sensor_batch (a :: rest) t last =
      if stoss a > STEP_BARRIER ∧ t - last > STEP_MIN_INTERVAL then
        (1 + (process_sensor_batch rest (t + 1 / 10) t).1,
         (process_sensor_batch rest (t + 1 / 10) t).2)
      else process_sensor_batch rest (t + 1 / 10) last := by
  simp only [process_sensor_batch, detect_steps]
  split_ifs with h <;> simp

lemma process_sensor_batch_le_length :
    ∀ (rs : List Accel) (t last : ℚ),
      (process_sensor_batch rs t last).1 ≤ rs.length := by
  intro rs
  induction rs with
  | nil => intro t last; simp [process_sensor_batch]
  | cons a rest ih =>
    intro t last
    rw [process_sensor_batch_cons]
    split_ifs with h
    · have := ih (t + 1 / 10) t
      simp only [List.length_cons]
      omega
    · have := ih (t + 1 / 10) last
      simp only [List.length_cons]
      omega

lemma process_sensor_batch_no_peaks :
    ∀ (rs : List Accel) (t last : ℚ),
      (∀ a ∈ rs, stoss a ≤ STEP_BARRIER) →
      (process_sensor_batch rs t last).1 = 0 := by
  intro rs
  induction rs with
  | nil => intro t last _; rfl
  | cons a rest ih =>
    intro t last h
    have ha : ¬ stoss a > STEP_BARRIER := not_lt.mpr (h a (by simp))
    rw [process_sensor_batch_cons, if_neg (fun hc => ha hc.1)]
    exact ih (t + 1 / 10) last (fun b hb => h b (by simp [hb]))

lemma process_sensor_batch_window :
    ∀ (rs : List Accel) (t last : ℚ),
      (∀ i, i < rs.length → t + i / 10 - last ≤ STEP_MIN_INTERVAL) →
      (process_sensor_batch rs t last).1 = 0 := by
  intro rs
  induction rs with
  | nil => intro t last _; rfl
  | cons a rest ih =>
    intro t last h
    have h0 : t - last ≤ STEP_MIN_INTERVAL := by
      have := h 0 (by simp)
      push_cast at this
      linarith
    rw [process_sensor_batch_cons, if_neg (fun hc => absurd hc.2 (not_lt.mpr h0))]
    apply ih (t + 1 / 10) last
    intro i hi
    have := h (i + 1) (by simpa using Nat.succ_lt_succ hi)
    push_cast at this
    linarith

lemma process_sensor_batch_separated :
    ∀ (rs : List Accel) (t last : ℚ),
      (∀ i, i < rs.length → stoss (rs.getD i accelZero) > STEP_BARRIER →
        t + i / 10 - last > STEP_MIN_INTERVAL) →
      (∀ j, j < rs.length → ∀ i, i < j →
        stoss (rs.getD i accelZero) > STEP_BARRIER →
        stoss (rs.getD j accelZero) > STEP_BARRIER →
        ((j : ℚ) - (i : ℚ)) / 10 > STEP_MIN_INTERVAL) →
      (process_sensor_batch rs t last).1 =
        rs.countP (fun a => decide (stoss a > STEP_BARRIER)) := by
  intro rs
  induction rs with
  | nil => intro t last _ _; rfl
  | cons a rest ih =>
    intro t last h1 h2
    by_cases hp : stoss a > STEP_BARRIER
    · have he : t - last > STEP_MIN_INTERVAL := by
        have := h1 0 (by simp) (by simpa using hp)
        push_cast at this
        linarith
      have hrest : (process_sensor_batch rest (t + 1 / 10) t).1 =
          rest.countP (fun a => decide (stoss a > STEP_BARRIER)) := by
        apply ih
        · intro i hi hpi
          have hsep := h2 (i + 1) (by simpa using Nat.succ_lt_succ hi) 0
            (Nat.succ_pos i) (by simpa using hp)
            (by simpa [List.getD_cons_succ] using hpi)
          push_cast at hsep
          linarith
        · intro j hj i hij hpi hpj
          have := h2 (j + 1) (by simpa using Nat.succ_lt_succ hj) (i + 1)
            (Nat.succ_lt_succ hij) (by simpa [List.getD_cons_succ] using hpi)
            (by simpa [List.getD_cons_succ] using hpj)
          push_cast at this ⊢
          linarith
      have hcount : (a :: rest).countP (fun a => decide (stoss a > STEP_BARRIER)) =
          rest.countP (fun a => decide (stoss a > STEP_BARRIER)) + 1 :=
        by simp [List.countP_cons, hp]
      rw [process_sensor_batch_cons, if_pos ⟨hp, he⟩]
      show 1 + (process_sensor_batch rest (t + 1 / 10) t).1 = _
      rw [hrest, hcount]
      omega
    · have hrest : (process_sensor_batch rest (t + 1 / 10) last).1 =
          rest.countP (fun a => decide (stoss a > STEP_BARRIER)) := by
        apply ih
        · intro i hi hpi
          have := h1 (i + 1) (by simpa using Nat.succ_lt_succ hi)
            (by simpa [List.getD_cons_succ] using hpi)
          push_cast at this
          linarith
        · intro j hj i hij hpi hpj
          have := h2 (j + 1) (by simpa using Nat.succ_lt_succ hj) (i + 1)
            (Nat.succ_lt_succ hij) (by simpa [List.getD_cons_succ] using hpi)
            (by simpa [List.getD_cons_succ] using hpj)
          push_cast at this ⊢
          linarith
      have hcount : (a :: rest).countP (fun a => decide (stoss a > STEP_BARRIER)) =
          rest.countP (fun a => decide (stoss a > STEP_BARRIER)) :=
        by simp [List.countP_cons, hp]
      rw [process_sensor_batch_cons, if_neg (fun hc => hp hc.1), hcount]
      exact hrest

lemma menu_transition_stage (p : PetState) : (menu_transition p).1.stage = p.stage := by
  unfold menu_transition
  split_ifs <;> rfl

lemma menu_transition_hunger (p : PetState) : (menu_transition p).1.hunger = p.hunger := by
  unfold menu_transition
  split_ifs <;> rfl

lemma menu_transition_poop (p : PetState) :
    (menu_transition p).1.poop_present = p.poop_present := by
  unfold menu_transition
  split_ifs <;> rfl

-- ==================== Claim theorems ====================

/-- C2: get_emotion_priority resolves exactly one emotion by strict
short-circuiting precedence — active lock keeps the current emotion, then
health < 40 gives SICK, then poop gives SICK when overdue (older than 15
minutes) and POOP otherwise, then hunger > 70 gives CRY for INFANT and
HUNGER otherwise, then energy < 30 gives SLEEP, then happiness > 80 HAPPY,
happiness < 40 SAD, else IDLE. The embedding is a function of the snapshot
and the evaluation time (the clock the source reads), so the same input
always yields the same output, and the output is always the locked current
emotion or one of the eight listed emotions. -/
theorem emotion_priority_total_order (s : PetState) (now : ℚ) :
    (emotion_locked s now = true →
      get_emotion_priority s now = s.current_emotion) ∧
    (emotion_locked s now = false → s.health < 40 →
      get_emotion_priority s now = "SICK") ∧
    (emotion_locked s now = false → ¬ s.health < 40 → s.poop_present = true →
      poop_overdue s now = true → get_emotion_priority s now = "SICK") ∧
    (emotion_locked s now = false → ¬ s.health < 40 → s.poop_present = true →
      poop_overdue s now = false → get_emotion_priority s now = "POOP") ∧
    (emotion_locked s now = false → ¬ s.health < 40 → s.poop_present = false →
      s.hunger > 70 → s.stage = Stage.INFANT →
      get_emotion_priority s now = "CRY") ∧
    (emotion_locked s now = false → ¬ s.health < 40 → s.poop_present = false →
      s.hunger > 70 → s.stage ≠ Stage.INFANT →
      get_emotion_priority s now = "HUNGER") ∧
    (emotion_locked s now = false → ¬ s.health < 40 → s.poop_present = false →
      ¬ s.hunger > 70 → s.energy < 30 → get_emotion_priority s now = "SLEEP") ∧
    (emotion_locked s now = false → ¬ s.health < 40 → s.poop_present = false →
      ¬ s.hunger > 70 → ¬ s.energy < 30 → s.happiness > 80 →
      get_emotion_priority s now = "HAPPY") ∧
    (emotion_locked s now = false → ¬ s.health < 40 → s.poop_present = false →
      ¬ s.hunger > 70 → ¬ s.energy < 30 → ¬ s.happiness > 80 → s.happiness < 40 →
      get_emotion_priority s now = "SAD") ∧
    (emotion_locked s now = false → ¬ s.health < 40 → s.poop_present = false →
      ¬ s.hunger > 70 → ¬ s.energy < 30 → ¬ s.happiness > 80 → ¬ s.happiness < 40 →
      get_emotion_priority s now = "IDLE") ∧
    (get_emotion_priority s now = s.current_emotion ∨
      get_emotion_priority s now ∈
        (["SICK", "POOP", "CRY", "HUNGER", "SLEEP", "HAPPY", "SAD", "IDLE"] : List String)) := by
  refine ⟨?_, ?_, ?_, ?_, ?_, ?_, ?_, ?_, ?_, ?_, ?_⟩
  case refine_11 =>
    unfold get_emotion_priority
    split_ifs <;> simp
  all_goals intros
  all_goals simp [get_emotion_priority, *]

/-- Witness for C2 at a concrete snapshot with low health and no lock. -/
theorem emotion_priority_total_order_witness :
    get_emotion_priority sample_sick_pet 0 = "SICK" :=
  (emotion_priority_total_order sample_sick_pet 0).2.1 rfl (by decide)

/-- C9: modelling the whole body of update_pet_state_atomic as one critical
section of the global db_lock (the SELECT and the version-conditioned
UPDATE see the same row), the version-conflict branch is unreachable: every
call that finds the row performs exactly one read-merge-write and returns
the merged state with version incremented; a call that finds no row
returns notFound. The write paths that bypass the lock-protected atomic
update (startup reset, display-poll menu transitions, menu switch) never
change the version column. -/
theorem atomic_update_no_conflict (row : Option PetState) (u : PetPatch)
    (cur p : PetState) (t : ℚ) :
    ((update_pet_state_atomic row u).1 ≠ UpdateResult.conflict) ∧
    (row = some cur →
      update_pet_state_atomic row u =
        (UpdateResult.committed { apply_patch cur u with version := cur.version + 1 },
         some { apply_patch cur u with version := cur.version + 1 })) ∧
    (update_pet_state_atomic none u = (UpdateResult.notFound, none)) ∧
    ((device_startup_pet_reset (some p) t).version = p.version) ∧
    ((menu_transition p).1.version = p.version) ∧
    (∀ q menu, switch_menu menu p = Except.ok q → q.version = p.version) := by
  refine ⟨?_, ?_, rfl, rfl, ?_, ?_⟩
  · cases row with
    | none => simp [update_pet_state_atomic]
    | some c => simp [update_pet_state_atomic]
  · rintro rfl
    simp [update_pet_state_atomic]
  · unfold menu_transition
    split_ifs <;> rfl
  · intro q menu h
    unfold switch_menu at h
    split at h
    · cases h
      rfl
    · cases h

/-- Witness for C9 at a concrete row and patch. -/
theorem atomic_update_no_conflict_witness :
    update_pet_state_atomic (some sample_pet) sample_patch =
      (UpdateResult.committed
        { apply_patch sample_pet sample_patch with version := sample_pet.version + 1 },
       some { apply_patch sample_pet sample_patch with version := sample_pet.version + 1 }) :=
  (atomic_update_no_conflict (some sample_pet) sample_patch sample_pet sample_pet 0).2.1 rfl

/-- C3: the display poll evaluates its sources in strict priority order: a
display row written by device_startup less than 5 seconds ago yields the
canonical INFANT startup descriptor whatever else is stored; otherwise an
existing display row is returned verbatim with mode MANUAL; with no
display row, the descriptor is derived from the pet state with mode
AUTOMATIC — stage mapped INFANT:0, CHILD:1, ADULT:2, OLD:3, END:3, food
icon exactly when hunger > 70, poop icon exactly when poop is present. -/
theorem display_priority_precedence (r : OledRow) (pet : Option PetState)
    (p : PetState) (now : ℚ) :
    (startup_fresh r now = true →
      (get_oled_display (some r) pet now).1 = startup_response) ∧
    (startup_fresh r now = false →
      (get_oled_display (some r) pet now).1 = manual_response r) ∧
    ((manual_response r).mode = "MANUAL" ∧
      (manual_response r).animation_id = r.animation_id ∧
      (manual_response r).animation_name = some r.animation_name ∧
      (manual_response r).animation_type = some r.animation_type ∧
      (manual_response r).show_home_icon = r.show_home_icon ∧
      (manual_response r).show_food_icon = r.show_food_icon ∧
      (manual_response r).show_poop_icon = r.show_poop_icon) ∧
    (r.screen_type ≠ "" → (manual_response r).screen_type = r.screen_type) ∧
    ((get_oled_display none (some p) now).1.mode = "AUTOMATIC") ∧
    ((get_oled_display none (some p) now).1.animation_id = stage_to_id p.stage) ∧
    (stage_to_id Stage.INFANT = 0 ∧ stage_to_id Stage.CHILD = 1 ∧
      stage_to_id Stage.ADULT = 2 ∧ stage_to_id Stage.OLD = 3 ∧
      stage_to_id Stage.END = 3) ∧
    ((get_oled_display none (some p) now).1.show_food_icon = decide (p.hunger > 70)) ∧
    ((get_oled_display none (some p) now).1.show_poop_icon = p.poop_present) ∧
    (startup_response.animation_id = 0 ∧ startup_response.stage = "INFANT" ∧
      startup_response.mode = "STARTUP_RESET") := by
  refine ⟨?_, ?_, ⟨rfl, rfl, rfl, rfl, rfl, rfl, rfl⟩, ?_, rfl, ?_, ⟨rfl, rfl, rfl, rfl, rfl⟩,
    ?_, ?_, ⟨rfl, rfl, rfl⟩⟩
  · intro h
    simp [get_oled_display, h]
  · intro h
    simp [get_oled_display, h]
  · intro h
    simp [manual_response, h]
  · simp [get_oled_display, automatic_response, menu_transition_stage]
  · simp [get_oled_display, automatic_response, menu_transition_hunger]
  · simp [get_oled_display, automatic_response, menu_transition_poop]

/-- Witness for C3: a fresh startup row wins, a stale one falls back to the
manual descriptor. -/
theorem display_priority_precedence_witness :
    (get_oled_display (some sample_startup_row) (some sample_pet) 101).1 =
      startup_response ∧
    (get_oled_display (some sample_startup_row) (some sample_pet) 200).1 =
      manual_response sample_startup_row ∧
    (manual_response sample_manual_row).screen_type = sample_manual_row.screen_type :=
  ⟨(display_priority_precedence sample_startup_row (some sample_pet) sample_pet 101).1
     (by norm_num [startup_fresh, sample_startup_row]),
   (display_priority_precedence sample_startup_row (some sample_pet) sample_pet 200).2.1
     (by norm_num [startup_fresh, sample_startup_row]),
   (display_priority_precedence sample_manual_row (some sample_pet) sample_pet 200).2.2.2.1
     (by decide)⟩

/-- C10: a display-override row exists from database initialization onward
(inserted with updated_by system_init when the table is empty), every
startup-complete call leaves a refreshed row (updated_by device_startup,
timestamped now); the display poll never returns mode AUTOMATIC while a
row exists, a poll at least 5 seconds after the row's timestamp returns
the stored row with mode MANUAL (as does any poll when the row was not
written by device_startup), and only the reset endpoint deletes the row. -/
theorem override_row_lifecycle (o : Option OledRow) (r : OledRow)
    (pet : Option PetState) (t now : ℚ) :
    ((init_database_oled o t).isSome = true) ∧
    (init_database_oled none t = some (init_oled_row t)) ∧
    ((init_oled_row t).updated_by = "system_init") ∧
    ((device_startup_display o t).updated_by = "device_startup") ∧
    ((device_startup_display o t).updated_at = t) ∧
    ((get_oled_display (some r) pet now).1.mode ≠ "AUTOMATIC") ∧
    (now - r.updated_at ≥ 5 →
      (get_oled_display (some r) pet now).1 = manual_response r ∧
      (manual_response r).mode = "MANUAL") ∧
    (r.updated_by ≠ "device_startup" →
      (get_oled_display (some r) pet now).1 = manual_response r) ∧
    (reset_oled_display o = none) := by
  refine ⟨?_, rfl, rfl, rfl, rfl, ?_, ?_, ?_, rfl⟩
  · cases o <;> rfl
  · by_cases h : startup_fresh r now <;> simp [get_oled_display, h, startup_response,
      manual_response]
  · intro h
    have hf : startup_fresh r now = false := by
      simp [startup_fresh, not_lt.mpr h]
    exact ⟨by simp [get_oled_display, hf], rfl⟩
  · intro h
    have hf : startup_fresh r now = false := by
      simp [startup_fresh, h]
    simp [get_oled_display, hf]

/-- Witness for C10: a poll 100 seconds after the startup write is MANUAL,
and a web_ui row is MANUAL at any time. -/
theorem override_row_lifecycle_witness :
    (get_oled_display (some sample_startup_row) (some sample_pet) 200).1 =
      manual_response sample_startup_row ∧
    (get_oled_display (some sample_manual_row) (some sample_pet) 101).1 =
      manual_response sample_manual_row ∧
    reset_oled_display (some sample_manual_row) = none :=
  ⟨((override_row_lifecycle (some sample_manual_row) sample_startup_row
      (some sample_pet) 0 200).2.2.2.2.2.2.1 (by norm_num [sample_startup_row])).1,
   (override_row_lifecycle (some sample_manual_row) sample_manual_row
      (some sample_pet) 0 101).2.2.2.2.2.2.2.1 (by decide),
   (override_row_lifecycle (some sample_manual_row) sample_manual_row
      (some sample_pet) 0 101).2.2.2.2.2.2.2.2⟩

/-- C4: a scheduler tick whose snapshot has action_lock clear commits a
state with hunger min(100, hunger + stageRate/30) — stageRate 15 for
INFANT, 10 for CHILD, 8 for ADULT, 12 for OLD, taken at the stage after
this tick's age progression, which is the snapshot stage whenever no age
rollover occurs — and energy max(0, energy - 2); a tick whose snapshot has
action_lock set is skipped entirely and commits nothing. -/
theorem tick_hunger_energy_and_lock_skip (s : PetState) (now : ℚ) (roll : Bool) :
    (s.action_lock = true → pet_engine_cycle s now roll = none) ∧
    (s.action_lock = false →
      (pet_engine_cycle s now roll).map PetState.hunger =
        some (min 100 (s.hunger + stage_hunger_rate (tick_stage s now) / 30)) ∧
      (pet_engine_cycle s now roll).map PetState.energy =
        some (max 0 (s.energy - 2))) ∧
    (stage_hunger_rate Stage.INFANT = 15 ∧ stage_hunger_rate Stage.CHILD = 10 ∧
      stage_hunger_rate Stage.ADULT = 8 ∧ stage_hunger_rate Stage.OLD = 12) ∧
    (age_progressed s now = false → tick_stage s now = s.stage) := by
  refine ⟨?_, ?_, ⟨rfl, rfl, rfl, rfl⟩, ?_⟩
  · intro h
    simp [pet_engine_cycle, h]
  · intro h
    constructor <;> simp [pet_engine_cycle, h]
  · intro h
    simp [tick_stage, h]

/-- Witness for C4: a locked snapshot is skipped; an unlocked one commits
the stated hunger and energy. -/
theorem tick_hunger_energy_and_lock_skip_witness :
    pet_engine_cycle sample_locked_pet 0 false = none ∧
    (pet_engine_cycle sample_pet 0 false).map PetState.hunger =
      some (min 100 (sample_pet.hunger + stage_hunger_rate (tick_stage sample_pet 0) / 30)) ∧
    (pet_engine_cycle sample_pet 0 false).map PetState.energy =
      some (max 0 (sample_pet.energy - 2)) :=
  ⟨(tick_hunger_energy_and_lock_skip sample_locked_pet 0 false).1 rfl,
   (tick_hunger_energy_and_lock_skip sample_pet 0 false).2.1 rfl⟩

/-- C5: both the /api/pet/feed action and the image-upload auto-feed set
hunger to max(0, hunger - 40), schedule digestion_due_time 30 minutes out,
and set emotion EATING with a 3-second expiry; consequently any sequence of
repeated feed calls starting from nonnegative hunger keeps hunger
nonnegative. -/
theorem feed_effect_and_hunger_floor (s : PetState) (now : ℚ) (times : List ℚ) :
    (pet_feed s now).hunger = max 0 (s.hunger - 40) ∧
    (pet_feed s now).digestion_due_time = some (now + 30 * 60) ∧
    (pet_feed s now).current_emotion = "EATING" ∧
    (pet_feed s now).emotion_expire_at = some (now + 3) ∧
    (upload_image_auto_feed s now).hunger = max 0 (s.hunger - 40) ∧
    (upload_image_auto_feed s now).digestion_due_time = some (now + 30 * 60) ∧
    (upload_image_auto_feed s now).current_emotion = "EATING" ∧
    (upload_image_auto_feed s now).emotion_expire_at = some (now + 3) ∧
    (0 ≤ s.hunger → 0 ≤ (feed_seq s times).hunger) :=
  ⟨rfl, rfl, rfl, rfl, rfl, rfl, rfl, rfl, fun h0 => feed_seq_hunger_nonneg times s h0⟩

/-- Witness for C5 at a concrete pet state and feed times. -/
theorem feed_effect_and_hunger_floor_witness :
    (pet_feed sample_pet 1000).hunger = max 0 (sample_pet.hunger - 40) ∧
    0 ≤ (feed_seq sample_pet [1000, 2000, 3000]).hunger :=
  ⟨(feed_effect_and_hunger_floor sample_pet 1000 []).1,
   (feed_effect_and_hunger_floor sample_pet 1000 [1000, 2000, 3000]).2.2.2.2.2.2.2.2
     (by norm_num [sample_pet])⟩

/-- C8: the display poll with no pet state row (and no display row, so
neither the startup lock nor a manual override applies) returns the
hardcoded safe default descriptor — animation id 1, health 100, hunger 0,
cleanliness 100, happiness 100, energy 100, menu MAIN — with mode DEFAULT
and a success status, never an error. -/
theorem display_default_when_no_pet (now : ℚ) :
    get_oled_display none none now = (default_response, none) ∧
    default_response.status = "success" ∧
    default_response.mode = "DEFAULT" ∧
    default_response.animation_id = 1 ∧
    default_response.stage = "CHILD" ∧
    default_response.health = some 100 ∧
    default_response.hunger = some 0 ∧
    default_response.cleanliness = some 100 ∧
    default_response.happiness = some 100 ∧
    default_response.energy = some 100 ∧
    default_response.current_menu = some "MAIN" :=
  ⟨rfl, rfl, rfl, rfl, rfl, rfl, rfl, rfl, rfl, rfl, rfl⟩

/-- C7 counterexample: acknowledging the already-sent event 7 returns
status success with HTTP 200, not the 404-style failure the claim states
(the UPDATE filters only on id and device_id, and the matched row counts
toward rowcount even though is_sent was already 1). -/
theorem mark_event_received_resend_counterexample :
    mark_event_received (some 7) "ESP32_001" [sample_sent_event] =
      ([sample_sent_event], "success", 200) ∧
    sample_sent_event.is_sent = true := by
  constructor
  · rfl
  · rfl

/-- C7 amended: acknowledging an event id that names an existing event for
the device marks it sent and returns success — also when the event was
already sent (re-acknowledging is an idempotent success, not a 404);
acknowledging an unknown event id returns a 404-style failure, and a
request without an event_id field is rejected with a 400-style failure and
no state change. -/
theorem mark_event_received_behavior (eid : ℕ) (dev : String) (events : List EventRow) :
    (mark_event_received none dev events = (events, "error", 400)) ∧
    (events.countP (fun e => decide (e.id = eid ∧ e.device_id = dev)) > 0 →
      mark_event_received (some eid) dev events =
        (events.map (fun e =>
            if e.id = eid ∧ e.device_id = dev then { e with is_sent := true } else e),
         "success", 200)) ∧
    (events.countP (fun e => decide (e.id = eid ∧ e.device_id = dev)) = 0 →
      mark_event_received (some eid) dev events = (events, "error", 404)) := by
  refine ⟨rfl, ?_, ?_⟩
  · intro h
    simp only [mark_event_received]
    rw [if_pos h]
  · intro h
    simp only [mark_event_received]
    rw [if_neg (by omega)]

/-- Witness for C7 amended: a re-ack of the already-sent event 7 succeeds,
and an ack of the unknown event 9 fails with 404. -/
theorem mark_event_received_behavior_witness :
    mark_event_received (some 7) "ESP32_001" [sample_sent_event] =
      ([sample_sent_event].map (fun e =>
          if e.id = 7 ∧ e.device_id = "ESP32_001" then { e with is_sent := true } else e),
       "success", 200) ∧
    mark_event_received (some 9) "ESP32_001" [sample_sent_event] =
      ([sample_sent_event], "error", 404) :=
  ⟨(mark_event_received_behavior 7 "ESP32_001" [sample_sent_event]).2.1 (by decide),
   (mark_event_received_behavior 9 "ESP32_001" [sample_sent_event]).2.2 (by decide)⟩

/-- C1 counterexample: the menu-switch endpoint commits a successful write
(current_menu changes from MAIN to FOOD_MENU) that leaves the version
column exactly where it was (5), so not every successful write path
increments version by 1. -/
theorem version_bypass_counterexample :
    switch_menu "FOOD_MENU" sample_pet =
      Except.ok { sample_pet with current_menu := "FOOD_MENU" } ∧
    ({ sample_pet with current_menu := "FOOD_MENU" } : PetState).version = 5 ∧
    sample_pet.version = 5 ∧
    ({ sample_pet with current_menu := "FOOD_MENU" } : PetState).current_menu = "FOOD_MENU" ∧
    sample_pet.current_menu = "MAIN" :=
  ⟨rfl, rfl, rfl, rfl, rfl⟩

/-- C1 amended: only writes that go through update_pet_state_atomic
increment version by exactly 1 per committed update (after a sequence of n
such updates the version has grown by n); the device startup-complete
reset, the display-poll menu transitions, and the menu-switch endpoint
write the pet_state row directly and leave version unchanged. -/
theorem version_increment_only_atomic (cur p : PetState) (u : PetPatch)
    (patches : List PetPatch) (t : ℚ) (menu : String) :
    ((update_pet_state_atomic (some cur) u).1 =
      UpdateResult.committed { apply_patch cur u with version := cur.version + 1 }) ∧
    ((run_atomic_updates cur patches).version = cur.version + patches.length) ∧
    ((device_startup_pet_reset (some p) t).version = p.version) ∧
    (∀ q, switch_menu menu p = Except.ok q → q.version = p.version) ∧
    ((menu_transition p).1.version = p.version) := by
  refine ⟨?_, ?_, rfl, ?_, ?_⟩
  · simp [update_pet_state_atomic]
  · induction patches generalizing cur with
    | nil => rfl
    | cons q ps ih =>
      have h1 : (update_pet_state_atomic (some cur) q).1 =
          UpdateResult.committed { apply_patch cur q with version := cur.version + 1 } := by
        simp [update_pet_state_atomic]
      simp only [run_atomic_updates, h1]
      rw [ih]
      simp [List.length_cons]
      omega
  · intro q h
    unfold switch_menu at h
    split at h
    · cases h
      rfl
    · cases h
  · unfold menu_transition
    split_ifs <;> rfl

/-- Witness for C1 amended at concrete inputs. -/
theorem version_increment_only_atomic_witness :
    (update_pet_state_atomic (some sample_pet) sample_patch).1 =
      UpdateResult.committed
        { apply_patch sample_pet sample_patch with version := sample_pet.version + 1 } ∧
    (run_atomic_updates sample_pet [sample_patch, sample_patch]).version =
      sample_pet.version + 2 ∧
    (device_startup_pet_reset (some sample_pet) 0).version = sample_pet.version ∧
    ({ sample_pet with current_menu := "FOOD_MENU" } : PetState).version = sample_pet.version :=
  ⟨(version_increment_only_atomic sample_pet sample_pet sample_patch [] 0 "MAIN").1,
   (version_increment_only_atomic sample_pet sample_pet sample_patch
      [sample_patch, sample_patch] 0 "MAIN").2.1,
   (version_increment_only_atomic sample_pet sample_pet sample_patch [] 0 "MAIN").2.2.1,
   (version_increment_only_atomic sample_pet sample_pet sample_patch [] 0 "FOOD_MENU").2.2.2.1
     { sample_pet with current_menu := "FOOD_MENU" } rfl⟩

/-- C6: for the batch step detector (sub-readings timestamped at the fixed
0.1 s spacing), a batch whose squared magnitudes never exceed the barrier
yields 0 steps; when the batch start is eligible (more than the minimum
interval after the incoming last-step time) and every pair of super-barrier
peaks is separated by more than the minimum interval, the step count equals
the number of super-barrier peaks; super-barrier peaks all within the
minimum interval of an eligible leading peak collapse to exactly 1 step;
and the count is always an integer between 0 and the batch length. -/
theorem step_detector_threshold_behavior (readings : List Accel) (t last : ℚ) :
    ((∀ a ∈ readings, stoss a ≤ STEP_BARRIER) →
      (process_sensor_batch readings t last).1 = 0) ∧
    (t - last > STEP_MIN_INTERVAL →
      (∀ j, j < readings.length → ∀ i, i < j →
        stoss (readings.getD i accelZero) > STEP_BARRIER →
        stoss (readings.getD j accelZero) > STEP_BARRIER →
        ((j : ℚ) - (i : ℚ)) / 10 > STEP_MIN_INTERVAL) →
      (process_sensor_batch readings t last).1 =
        readings.countP (fun a => decide (stoss a > STEP_BARRIER))) ∧
    (∀ a rest, readings = a :: rest → stoss a > STEP_BARRIER →
      t - last > STEP_MIN_INTERVAL →
      (∀ i, i < rest.length → ((i : ℚ) + 1) / 10 ≤ STEP_MIN_INTERVAL) →
      (process_sensor_batch readings t last).1 = 1) ∧
    ((process_sensor_batch readings t last).1 ≤ readings.length) := by
  refine ⟨?_, ?_, ?_, process_sensor_batch_le_length readings t last⟩
  · intro h
    exact process_sensor_batch_no_peaks readings t last h
  · intro hstart hsep
    apply process_sensor_batch_separated readings t last
    · intro i _ _
      have hi : (0 : ℚ) ≤ (i : ℚ) / 10 := by positivity
      linarith
    · exact hsep
  · rintro a rest rfl hp hstart hwin
    rw [process_sensor_batch_cons, if_pos ⟨hp, hstart⟩]
    show 1 + (process_sensor_batch rest (t + 1 / 10) t).1 = 1
    have h0 : (process_sensor_batch rest (t + 1 / 10) t).1 = 0 := by
      apply process_sensor_batch_window rest (t + 1 / 10) t
      intro i hi
      have := hwin i hi
      linarith
    omega

/-- Witness for C6: a quiet two-reading batch yields 0 steps, the batch
with eligible separated peaks at indices 0 and 3 counts its peaks, and two
adjacent peaks collapse to 1 step. -/
theorem step_detector_threshold_behavior_witness :
    (process_sensor_batch sample_quiet_batch 100 0).1 = 0 ∧
    (process_sensor_batch sample_batch 100 0).1 =
      sample_batch.countP (fun a => decide (stoss a > STEP_BARRIER)) ∧
    (process_sensor_batch sample_collapse_batch 100 0).1 = 1 :=
  ⟨(step_detector_threshold_behavior sample_quiet_batch 100 0).1
     (by
       intro a ha
       simp only [sample_quiet_batch, List.mem_cons, List.mem_singleton] at ha
       rcases ha with rfl | rfl | h
       · norm_num [stoss, STEP_BARRIER]
       · norm_num [stoss, accelZero, STEP_BARRIER]
       · cases h),
   (step_detector_threshold_behavior sample_batch 100 0).2.1
     (by norm_num [STEP_MIN_INTERVAL])
     (by
       intro j hj i hij hpi hpj
       simp only [sample_batch, List.length_cons, List.length_nil] at hj
       interval_cases j <;> interval_cases i <;>
         norm_num [sample_batch, List.getD_cons_zero, List.getD_cons_succ,
           stoss, accelZero, sample_peak, STEP_BARRIER, STEP_MIN_INTERVAL] at hpi hpj ⊢),
   (step_detector_threshold_behavior sample_collapse_batch 100 0).2.2.1
     sample_peak [sample_peak] rfl
     (by norm_num [stoss, sample_peak, STEP_BARRIER])
     (by norm_num [STEP_MIN_INTERVAL])
     (by
       intro i hi
       simp only [List.length_singleton] at hi
       interval_cases i
       norm_num [STEP_MIN_INTERVAL])⟩
